import Mathlib

/-!
Verification of the pipeline sequencer in `app.py` of Project Chimera.

The application is a UI-driven sequencer that runs a four-stage pipeline
(collection, sentiment analysis, forecasting, dashboard rendering) in fixed
order. We give a shallow embedding: Python values are modelled by `PyVal`,
exceptions by `Exc`, the external collaborator modules and the file system
by a `World` record of behaviours, and one run of the script by a pure
function producing the list of user-visible events together with an outcome
(script stopped via `st.stop`, script completed, or an exception escaped
uncaught).
-/

/-- Universe of Python values the sequencer ever inspects or forwards. -/
inductive PyVal where
  | none
  | bool (b : Bool)
  | num (n : Int)
  | str (s : String)
deriving DecidableEq, Repr

/-- Python truthiness (`if not x`) for the values of `PyVal`. -/
def truthy : PyVal → Bool
  | .none => false
  | .bool b => b
  | .num n => n != 0
  | .str s => !(s == "")

/-- Python `str(x)`, as used by f-string interpolation. -/
def pyStrOf : PyVal → String
  | .none => "None"
  | .bool b => if b then "True" else "False"
  | .num n => toString n
  | .str s => s

/-- Exceptions distinguished by the Stage 4 handlers: `FileNotFoundError`
is caught by the first handler, everything else by `except Exception`. -/
inductive Exc where
  | fileNotFound (path : String)
  | keyError (key : String)
  | other (msg : String)
deriving DecidableEq, Repr

/-- Python `str(e)` for the modelled exceptions (a `KeyError` prints its
key in quotes, which is what the f-string in the generic handler shows). -/
def excText : Exc → String
  | .fileNotFound p => "[Errno 2] No such file or directory: \x27" ++ p ++ "\x27"
  | .keyError k => "\x27" ++ k ++ "\x27"
  | .other m => m

/-- A tabular dataset (`pandas.DataFrame`) as a list of named columns. -/
structure Frame where
  cols : List (String × List PyVal)
deriving DecidableEq, Repr

/-- Column subscript `df[name]`: raises `KeyError(name)` when absent. -/
def Frame.getCol (f : Frame) (name : String) : Except Exc (List PyVal) :=
  match f.cols.find? (fun p => p.1 == name) with
  | some p => .ok p.2
  | none => .error (.keyError name)

/-- Column assignment `df[name] = vals` for a column already present. -/
def Frame.setCol (f : Frame) (name : String) (vals : List PyVal) : Frame :=
  ⟨f.cols.map (fun p => if p.1 = name then (name, vals) else p)⟩

/-- The settings imported from `config.py` (lines 18-22 of `app.py`).
Python performs no type checking at import time, so every field is a raw
`PyVal`. -/
structure Config where
  NEWS_API_KEY : PyVal
  GNEWS_API_KEY : PyVal
  TWITTER_BEARER_TOKEN : PyVal
  SLACK_WEBHOOK_URL : PyVal
  RAW_NEWS_FILE : PyVal
  ANALYZED_NEWS_FILE : PyVal
  QUERY_TOPIC : PyVal
  POSITIVE_THRESHOLD : PyVal
  NEGATIVE_THRESHOLD : PyVal
deriving DecidableEq, Repr

/-- The names `config.py` actually defines: a `none` field models a name
whose `from config import ...` would raise `ImportError`. -/
structure ConfigSource where
  NEWS_API_KEY : Option PyVal
  GNEWS_API_KEY : Option PyVal
  TWITTER_BEARER_TOKEN : Option PyVal
  SLACK_WEBHOOK_URL : Option PyVal
  RAW_NEWS_FILE : Option PyVal
  ANALYZED_NEWS_FILE : Option PyVal
  QUERY_TOPIC : Option PyVal
  POSITIVE_THRESHOLD : Option PyVal
  NEGATIVE_THRESHOLD : Option PyVal
deriving DecidableEq, Repr

/-- The `from config import (...)` statement: succeeds only when every one
of the nine names resolves; otherwise `ImportError` (`none`). No value is
inspected or validated. -/
def loadConfig (s : ConfigSource) : Option Config :=
  match s.NEWS_API_KEY, s.GNEWS_API_KEY, s.TWITTER_BEARER_TOKEN,
    s.SLACK_WEBHOOK_URL, s.RAW_NEWS_FILE, s.ANALYZED_NEWS_FILE,
    s.QUERY_TOPIC, s.POSITIVE_THRESHOLD, s.NEGATIVE_THRESHOLD with
  | some a, some b, some c, some d, some e, some f, some g, some h, some i =>
      some ⟨a, b, c, d, e, f, g, h, i⟩
  | _, _, _, _, _, _, _, _, _ => none

/-- Behaviour of everything external to the sequencer: the four collaborator
modules, `pandas`, and the file system as it stands when Stage 4 reads it.
Each call may return a value or raise an exception. -/
structure World where
  run_collection : String → PyVal → PyVal → PyVal → PyVal → Except Exc PyVal
  run_analysis : PyVal → PyVal → Except Exc PyVal
  run_forecasting : PyVal → PyVal → PyVal → PyVal → Nat → Except Exc PyVal
  fs : PyVal → Option Frame
  to_datetime : List PyVal → Except Exc (List PyVal)
  generate_dashboard_figure : Frame → PyVal → String → Nat → Except Exc PyVal

/-- User-visible UI emissions and collaborator invocations, in program
order. `uiErrorDetails` models `st.error(f"Details: {e}")` on line 26,
whose text comes from the runtime `ImportError`. -/
inductive Event where
  | callCollection (query : String) (outputFilepath newsapiKey gnewsKey twitterToken : PyVal)
  | callAnalysis (inputFile outputFile : PyVal)
  | callForecasting (inputFilepath posThreshold negThreshold slackWebhookUrl : PyVal) (periods : Nat)
  | callPresenter (analyzedDf : Frame) (forecastDf : PyVal) (query : String) (periods : Nat)
  | stPyplot (fig : PyVal)
  | uiError (msg : String)
  | uiSuccess (msg : String)
  | uiInfo (msg : String)
  | uiErrorDetails
deriving DecidableEq, Repr

/-- How one run of the script ends. -/
inductive Outcome where
  | stopped
  | completed
  | uncaught (e : Exc)
deriving DecidableEq, Repr

/-- Message of line 54. -/
def collectErrMsg : String :=
  "Failed to collect any articles. Please check your API keys and the query term."

/-- Message of line 56. -/
def step1OkMsg : String := "Step 1/4: Data collection complete!"

/-- Message of line 63. -/
def analysisErrMsg : String := "Sentiment analysis failed. Please check the logs."

/-- Message of line 65. -/
def step2OkMsg : String := "Step 2/4: Sentiment analysis complete!"

/-- Message of line 76. -/
def step3OkMsg : String := "Step 3/4: Forecasting complete!"

/-- Message of line 91. -/
def dashboardOkMsg : String := "Dashboard generated successfully!"

/-- Message of line 94: `f"Could not find the analyzed data file: {ANALYZED_NEWS_FILE}"`. -/
def missingFileMsg (p : PyVal) : String :=
  "Could not find the analyzed data file: " ++ pyStrOf p

/-- Message of line 96: `f"An error occurred while creating the dashboard: {e}"`. -/
def genericErrMsg (s : String) : String :=
  "An error occurred while creating the dashboard: " ++ s

/-- Message of line 99. -/
def promptMsg : String :=
  "Enter a topic in the sidebar and click \x27Generate New Report\x27 to begin."

/-- Message of line 25. -/
def configErrMsg : String :=
  "💥 **Configuration Error:** Could not load settings from `config.py`. Please check the file."

/-- Message of line 27. -/
def configHintMsg : String :=
  "Ensure your `config.py` and `.env` files are correctly set up."

/-- The choices offered by the forecast-period selectbox (line 38). -/
def forecastChoices : List Nat := [7, 15, 30]

/-- The two `except` clauses of Stage 4 (lines 93-96), applied to an
exception escaping the `try` body, given the events already emitted inside
the body. -/
def stage4Handle (cfg : Config) (pre : List Event) (e : Exc) : List Event × Outcome :=
  match e with
  | .fileNotFound _ =>
      (pre ++ [Event.uiError (missingFileMsg cfg.ANALYZED_NEWS_FILE)], .completed)
  | e => (pre ++ [Event.uiError (genericErrMsg (excText e))], .completed)

/-- Stage 4 (lines 79-96): re-read the enriched dataset from disk, convert
its `publishedAt` column with `pd.to_datetime`, call the Presenter, display
the figure, and report success; exceptions go to `stage4Handle`. -/
def stage4Run (cfg : Config) (w : World) (query : String) (periods : Nat)
    (forecastDf : PyVal) : List Event × Outcome :=
  match w.fs cfg.ANALYZED_NEWS_FILE with
  | .none => stage4Handle cfg [] (.fileNotFound (pyStrOf cfg.ANALYZED_NEWS_FILE))
  | .some df =>
    match df.getCol "publishedAt" with
    | .error e => stage4Handle cfg [] e
    | .ok col =>
      match w.to_datetime col with
      | .error e => stage4Handle cfg [] e
      | .ok col2 =>
        let df2 := df.setCol "publishedAt" col2
        match w.generate_dashboard_figure df2 forecastDf query periods with
        | .error e => stage4Handle cfg [Event.callPresenter df2 forecastDf query periods] e
        | .ok fig =>
            ([Event.callPresenter df2 forecastDf query periods,
              Event.stPyplot fig, Event.uiSuccess dashboardOkMsg], .completed)

/-- Stage 3 (lines 68-76): call the Forecaster; its return value is never
inspected, success is reported unconditionally, and an exception escapes. -/
def stage3Run (cfg : Config) (w : World) (query : String) (periods : Nat) :
    List Event × Outcome :=
  let callEv := Event.callForecasting cfg.ANALYZED_NEWS_FILE cfg.POSITIVE_THRESHOLD
      cfg.NEGATIVE_THRESHOLD cfg.SLACK_WEBHOOK_URL periods
  match w.run_forecasting cfg.ANALYZED_NEWS_FILE cfg.POSITIVE_THRESHOLD
      cfg.NEGATIVE_THRESHOLD cfg.SLACK_WEBHOOK_URL periods with
  | .error e => ([callEv], .uncaught e)
  | .ok forecastDf =>
      let s4 := stage4Run cfg w query periods forecastDf
      (callEv :: Event.uiSuccess step3OkMsg :: s4.1, s4.2)

/-- Stage 2 (lines 59-65): call the Analyzer; a falsy result emits an error
and stops, a truthy one reports success and continues. -/
def stage2Run (cfg : Config) (w : World) (query : String) (periods : Nat) :
    List Event × Outcome :=
  let callEv := Event.callAnalysis cfg.RAW_NEWS_FILE cfg.ANALYZED_NEWS_FILE
  match w.run_analysis cfg.RAW_NEWS_FILE cfg.ANALYZED_NEWS_FILE with
  | .error e => ([callEv], .uncaught e)
  | .ok v =>
      if truthy v = false then
        ([callEv, Event.uiError analysisErrMsg], .stopped)
      else
        let s3 := stage3Run cfg w query periods
        (callEv :: Event.uiSuccess step2OkMsg :: s3.1, s3.2)

/-- Stage 1 (lines 44-56): call the Collector; a falsy result emits an error
and stops, a truthy one reports success and continues. -/
def stage1Run (cfg : Config) (w : World) (query : String) (periods : Nat) :
    List Event × Outcome :=
  let callEv := Event.callCollection query cfg.RAW_NEWS_FILE cfg.NEWS_API_KEY
      cfg.GNEWS_API_KEY cfg.TWITTER_BEARER_TOKEN
  match w.run_collection query cfg.RAW_NEWS_FILE cfg.NEWS_API_KEY
      cfg.GNEWS_API_KEY cfg.TWITTER_BEARER_TOKEN with
  | .error e => ([callEv], .uncaught e)
  | .ok v =>
      if truthy v = false then
        ([callEv, Event.uiError collectErrMsg], .stopped)
      else
        let s2 := stage2Run cfg w query periods
        (callEv :: Event.uiSuccess step1OkMsg :: s2.1, s2.2)

/-- One run of the script body after configuration loaded (lines 41-99):
the button either fired (`triggered`) and the pipeline runs with the topic
from the text box and the selectbox choice, or it did not and a static
prompt is shown. -/
def runApp (cfg : Config) (w : World) (triggered : Bool) (query : String)
    (choice : Fin 3) : List Event × Outcome :=
  if triggered then
    stage1Run cfg w query (forecastChoices.get choice)
  else
    ([Event.uiInfo promptMsg], .completed)

/-- The whole script (lines 17-99): the config import either fails, emitting
the configuration errors and stopping before any UI control exists, or
succeeds and the app body runs. -/
def startApp (s : ConfigSource) (w : World) (triggered : Bool) (query : String)
    (choice : Fin 3) : List Event × Outcome :=
  match loadConfig s with
  | .none =>
      ([Event.uiError configErrMsg, Event.uiErrorDetails, Event.uiInfo configHintMsg],
        .stopped)
  | .some cfg => runApp cfg w triggered query choice

/-- Recognizer for Analyzer invocations in a trace. -/
def isAnalysisCall : Event → Bool
  | .callAnalysis _ _ => true
  | _ => false

/-- Recognizer for Forecaster invocations in a trace. -/
def isForecastCall : Event → Bool
  | .callForecasting _ _ _ _ _ => true
  | _ => false

/-- Recognizer for Presenter invocations in a trace. -/
def isPresenterCall : Event → Bool
  | .callPresenter _ _ _ _ => true
  | _ => false

/-- Recognizer for Collector invocations in a trace. -/
def isCollectionCall : Event → Bool
  | .callCollection _ _ _ _ _ => true
  | _ => false

/-! ### Concrete configurations and worlds used by witnesses -/

/-- A concrete loaded configuration. -/
def cfg0 : Config :=
  ⟨.str "newskey", .str "gnewskey", .str "twtoken",
   .str "https://hooks.example/T0", .str "raw_news.csv",
   .str "analyzed_news.csv", .str "artificial intelligence",
   .num 1, .num (-1)⟩

/-- A concrete enriched dataset with a `publishedAt` column. -/
def frame0 : Frame :=
  ⟨[("publishedAt", [.str "2025-01-01"]), ("sentiment_score", [.num 1])]⟩

/-- A world where every collaborator succeeds and the enriched file exists. -/
def baseWorld : World where
  run_collection := fun _ _ _ _ _ => .ok (.bool true)
  run_analysis := fun _ _ => .ok (.bool true)
  run_forecasting := fun _ _ _ _ _ => .ok (.str "forecast")
  fs := fun p => if p = .str "analyzed_news.csv" then some frame0 else none
  to_datetime := fun col => .ok col
  generate_dashboard_figure := fun _ _ _ _ => .ok (.str "figure")

/-! ### Reduction lemmas for the stages -/

theorem runApp_triggered (cfg : Config) (w : World) (query : String) (choice : Fin 3) :
    runApp cfg w true query choice = stage1Run cfg w query (forecastChoices.get choice) := rfl

theorem stage1Run_ok_true (cfg : Config) (w : World) (query : String) (periods : Nat)
    (v : PyVal)
    (h : w.run_collection query cfg.RAW_NEWS_FILE cfg.NEWS_API_KEY
      cfg.GNEWS_API_KEY cfg.TWITTER_BEARER_TOKEN = .ok v)
    (ht : truthy v = true) :
    stage1Run cfg w query periods =
      (Event.callCollection query cfg.RAW_NEWS_FILE cfg.NEWS_API_KEY
          cfg.GNEWS_API_KEY cfg.TWITTER_BEARER_TOKEN ::
        Event.uiSuccess step1OkMsg :: (stage2Run cfg w query periods).1,
        (stage2Run cfg w query periods).2) := by
  unfold stage1Run
  rw [h]
  simp [ht]

theorem stage2Run_ok_true (cfg : Config) (w : World) (query : String) (periods : Nat)
    (v : PyVal)
    (h : w.run_analysis cfg.RAW_NEWS_FILE cfg.ANALYZED_NEWS_FILE = .ok v)
    (ht : truthy v = true) :
    stage2Run cfg w query periods =
      (Event.callAnalysis cfg.RAW_NEWS_FILE cfg.ANALYZED_NEWS_FILE ::
        Event.uiSuccess step2OkMsg :: (stage3Run cfg w query periods).1,
        (stage3Run cfg w query periods).2) := by
  unfold stage2Run
  rw [h]
  simp [ht]

theorem stage3Run_ok (cfg : Config) (w : World) (query : String) (periods : Nat)
    (fdf : PyVal)
    (h : w.run_forecasting cfg.ANALYZED_NEWS_FILE cfg.POSITIVE_THRESHOLD
      cfg.NEGATIVE_THRESHOLD cfg.SLACK_WEBHOOK_URL periods = .ok fdf) :
    stage3Run cfg w query periods =
      (Event.callForecasting cfg.ANALYZED_NEWS_FILE cfg.POSITIVE_THRESHOLD
          cfg.NEGATIVE_THRESHOLD cfg.SLACK_WEBHOOK_URL periods ::
        Event.uiSuccess step3OkMsg :: (stage4Run cfg w query periods fdf).1,
        (stage4Run cfg w query periods fdf).2) := by
  unfold stage3Run
  rw [h]

theorem stage3Run_err (cfg : Config) (w : World) (query : String) (periods : Nat)
    (e : Exc)
    (h : w.run_forecasting cfg.ANALYZED_NEWS_FILE cfg.POSITIVE_THRESHOLD
      cfg.NEGATIVE_THRESHOLD cfg.SLACK_WEBHOOK_URL periods = .error e) :
    stage3Run cfg w query periods =
      ([Event.callForecasting cfg.ANALYZED_NEWS_FILE cfg.POSITIVE_THRESHOLD
          cfg.NEGATIVE_THRESHOLD cfg.SLACK_WEBHOOK_URL periods],
        .uncaught e) := by
  unfold stage3Run
  rw [h]

theorem stage4Run_absent (cfg : Config) (w : World) (query : String) (periods : Nat)
    (fdf : PyVal) (h : w.fs cfg.ANALYZED_NEWS_FILE = none) :
    stage4Run cfg w query periods fdf =
      ([Event.uiError (missingFileMsg cfg.ANALYZED_NEWS_FILE)], .completed) := by
  unfold stage4Run
  rw [h]
  rfl

/-- The two Stage 4 error messages can never coincide: they start with
different characters. -/
theorem generic_ne_missing (s : String) (p : PyVal) :
    genericErrMsg s ≠ missingFileMsg p := by
  intro h
  have h2 : (fun l : List Char => l.headI) (genericErrMsg s).data =
      (fun l : List Char => l.headI) (missingFileMsg p).data :=
    congrArg (fun x => (fun l : List Char => l.headI) x.data) h
  have h3 : ('A' : Char) = 'C' := h2
  exact absurd h3 (by decide)

/-! ### C8: no trigger, no pipeline work -/

/-- C8: with no user trigger action, the run invokes none of the four
pipeline stages and shows only the static prompt instructing the user to
enter a topic and trigger a report. -/
theorem no_trigger_static_prompt (cfg : Config) (w : World) (query : String)
    (choice : Fin 3) :
    runApp cfg w false query choice = ([Event.uiInfo promptMsg], Outcome.completed) ∧
    ∀ e ∈ (runApp cfg w false query choice).1,
      isCollectionCall e = false ∧ isAnalysisCall e = false ∧
        isForecastCall e = false ∧ isPresenterCall e = false := by
  refine ⟨rfl, ?_⟩
  intro e he
  have htr : (runApp cfg w false query choice).1 = [Event.uiInfo promptMsg] := rfl
  rw [htr] at he
  simp only [List.mem_singleton] at he
  subst he
  exact ⟨rfl, rfl, rfl, rfl⟩

/-! ### C1: Collector failure halts the run before Stage 2 -/

/-- C1: if the Collector returns a falsy success value, the run emits the
error naming API keys and the query and stops; the Analyzer, Forecaster and
Presenter are never invoked. -/
theorem collector_failure_halts (cfg : Config) (w : World) (query : String)
    (choice : Fin 3) (v : PyVal)
    (hcol : w.run_collection query cfg.RAW_NEWS_FILE cfg.NEWS_API_KEY
      cfg.GNEWS_API_KEY cfg.TWITTER_BEARER_TOKEN = .ok v)
    (hfalsy : truthy v = false) :
    runApp cfg w true query choice =
      ([Event.callCollection query cfg.RAW_NEWS_FILE cfg.NEWS_API_KEY
          cfg.GNEWS_API_KEY cfg.TWITTER_BEARER_TOKEN,
        Event.uiError collectErrMsg], Outcome.stopped) ∧
    ∀ e ∈ (runApp cfg w true query choice).1,
      isAnalysisCall e = false ∧ isForecastCall e = false ∧
        isPresenterCall e = false := by
  have heq : runApp cfg w true query choice =
      ([Event.callCollection query cfg.RAW_NEWS_FILE cfg.NEWS_API_KEY
          cfg.GNEWS_API_KEY cfg.TWITTER_BEARER_TOKEN,
        Event.uiError collectErrMsg], Outcome.stopped) := by
    rw [runApp_triggered]
    unfold stage1Run
    rw [hcol]
    simp [hfalsy]
  refine ⟨heq, ?_⟩
  rw [heq]
  intro e he
  simp only [List.mem_cons, List.mem_singleton, List.not_mem_nil, or_false] at he
  rcases he with he | he <;> subst he <;> exact ⟨rfl, rfl, rfl⟩

/-- A world whose Collector returns `False`. -/
def collectFailWorld : World :=
  { baseWorld with run_collection := fun _ _ _ _ _ => .ok (.bool false) }

/-- Witness for C1 at a concrete configuration and world. -/
theorem collector_failure_halts_witness :
    runApp cfg0 collectFailWorld true "ai" 0 =
      ([Event.callCollection "ai" cfg0.RAW_NEWS_FILE cfg0.NEWS_API_KEY
          cfg0.GNEWS_API_KEY cfg0.TWITTER_BEARER_TOKEN,
        Event.uiError collectErrMsg], Outcome.stopped) :=
  (collector_failure_halts cfg0 collectFailWorld "ai" 0 (.bool false) rfl rfl).1

/-! ### C2: Analyzer failure halts the run before Stage 3 -/

/-- C2: if the Collector succeeded and the Analyzer returns a falsy success
value, the run emits the analysis error and stops; the Forecaster and the
Presenter are never invoked. -/
theorem analyzer_failure_halts (cfg : Config) (w : World) (query : String)
    (choice : Fin 3) (v1 v2 : PyVal)
    (hcol : w.run_collection query cfg.RAW_NEWS_FILE cfg.NEWS_API_KEY
      cfg.GNEWS_API_KEY cfg.TWITTER_BEARER_TOKEN = .ok v1)
    (ht1 : truthy v1 = true)
    (hana : w.run_analysis cfg.RAW_NEWS_FILE cfg.ANALYZED_NEWS_FILE = .ok v2)
    (hfalsy : truthy v2 = false) :
    runApp cfg w true query choice =
      ([Event.callCollection query cfg.RAW_NEWS_FILE cfg.NEWS_API_KEY
          cfg.GNEWS_API_KEY cfg.TWITTER_BEARER_TOKEN,
        Event.uiSuccess step1OkMsg,
        Event.callAnalysis cfg.RAW_NEWS_FILE cfg.ANALYZED_NEWS_FILE,
        Event.uiError analysisErrMsg], Outcome.stopped) ∧
    ∀ e ∈ (runApp cfg w true query choice).1,
      isForecastCall e = false ∧ isPresenterCall e = false := by
  have heq : runApp cfg w true query choice =
      ([Event.callCollection query cfg.RAW_NEWS_FILE cfg.NEWS_API_KEY
          cfg.GNEWS_API_KEY cfg.TWITTER_BEARER_TOKEN,
        Event.uiSuccess step1OkMsg,
        Event.callAnalysis cfg.RAW_NEWS_FILE cfg.ANALYZED_NEWS_FILE,
        Event.uiError analysisErrMsg], Outcome.stopped) := by
    rw [runApp_triggered,
      stage1Run_ok_true cfg w query (forecastChoices.get choice) v1 hcol ht1]
    unfold stage2Run
    rw [hana]
    simp [hfalsy]
  refine ⟨heq, ?_⟩
  rw [heq]
  intro e he
  simp only [List.mem_cons, List.mem_singleton, List.not_mem_nil, or_false] at he
  rcases he with he | he | he | he <;> subst he <;> exact ⟨rfl, rfl⟩

/-- A world whose Collector succeeds but whose Analyzer returns `False`. -/
def analysisFailWorld : World :=
  { baseWorld with run_analysis := fun _ _ => .ok (.bool false) }

/-- Witness for C2 at a concrete configuration and world. -/
theorem analyzer_failure_halts_witness :
    runApp cfg0 analysisFailWorld true "ai" 0 =
      ([Event.callCollection "ai" cfg0.RAW_NEWS_FILE cfg0.NEWS_API_KEY
          cfg0.GNEWS_API_KEY cfg0.TWITTER_BEARER_TOKEN,
        Event.uiSuccess step1OkMsg,
        Event.callAnalysis cfg0.RAW_NEWS_FILE cfg0.ANALYZED_NEWS_FILE,
        Event.uiError analysisErrMsg], Outcome.stopped) :=
  (analyzer_failure_halts cfg0 analysisFailWorld "ai" 0 (.bool true) (.bool false)
    rfl rfl rfl rfl).1

/-! ### Stage 4 trace facts -/

theorem stage4Run_no_forecast (cfg : Config) (w : World) (query : String)
    (periods : Nat) (fdf : PyVal) :
    ∀ e ∈ (stage4Run cfg w query periods fdf).1, isForecastCall e = false := by
  intro e he
  rcases hfs : w.fs cfg.ANALYZED_NEWS_FILE with _ | df
  · simp [stage4Run, stage4Handle, hfs] at he
    subst he; rfl
  · rcases hgc : df.getCol "publishedAt" with exc | col
    · rcases exc with p | k | m <;>
        simp [stage4Run, stage4Handle, hfs, hgc] at he <;> (subst he; rfl)
    · rcases hdt : w.to_datetime col with exc | col2
      · rcases exc with p | k | m <;>
          simp [stage4Run, stage4Handle, hfs, hgc, hdt] at he <;> (subst he; rfl)
      · rcases hgd : w.generate_dashboard_figure (df.setCol "publishedAt" col2)
            fdf query periods with exc | fig
        · rcases exc with p | k | m <;>
            simp [stage4Run, stage4Handle, hfs, hgc, hdt, hgd] at he <;>
            (rcases he with he | he <;> subst he <;> rfl)
        · simp [stage4Run, stage4Handle, hfs, hgc, hdt, hgd] at he
          rcases he with he | he | he <;> subst he <;> rfl

theorem stage4Run_forecast_countP (cfg : Config) (w : World) (query : String)
    (periods : Nat) (fdf : PyVal) :
    (stage4Run cfg w query periods fdf).1.countP isForecastCall = 0 := by
  rw [List.countP_eq_zero]
  intro a ha
  simp [stage4Run_no_forecast cfg w query periods fdf a ha]

theorem forecastChoices_get_cases (c : Fin 3) :
    forecastChoices.get c = 7 ∨ forecastChoices.get c = 15 ∨
      forecastChoices.get c = 30 := by
  fin_cases c <;> decide

/-! ### C3: Forecaster invoked exactly once with the configured arguments -/

/-- C3: when Collector and Analyzer both report truthy success, the
Forecaster is invoked exactly once, with the configured thresholds, the
configured webhook URL, and the user-selected horizon, which is one of
7, 15 or 30. -/
theorem forecaster_called_once (cfg : Config) (w : World) (query : String)
    (choice : Fin 3) (v1 v2 : PyVal)
    (hcol : w.run_collection query cfg.RAW_NEWS_FILE cfg.NEWS_API_KEY
      cfg.GNEWS_API_KEY cfg.TWITTER_BEARER_TOKEN = .ok v1)
    (ht1 : truthy v1 = true)
    (hana : w.run_analysis cfg.RAW_NEWS_FILE cfg.ANALYZED_NEWS_FILE = .ok v2)
    (ht2 : truthy v2 = true) :
    (runApp cfg w true query choice).1.countP isForecastCall = 1 ∧
    Event.callForecasting cfg.ANALYZED_NEWS_FILE cfg.POSITIVE_THRESHOLD
        cfg.NEGATIVE_THRESHOLD cfg.SLACK_WEBHOOK_URL (forecastChoices.get choice)
      ∈ (runApp cfg w true query choice).1 ∧
    (∀ e ∈ (runApp cfg w true query choice).1, isForecastCall e = true →
      e = Event.callForecasting cfg.ANALYZED_NEWS_FILE cfg.POSITIVE_THRESHOLD
        cfg.NEGATIVE_THRESHOLD cfg.SLACK_WEBHOOK_URL (forecastChoices.get choice)) ∧
    (forecastChoices.get choice = 7 ∨ forecastChoices.get choice = 15 ∨
      forecastChoices.get choice = 30) := by
  have heq : runApp cfg w true query choice =
      (Event.callCollection query cfg.RAW_NEWS_FILE cfg.NEWS_API_KEY
          cfg.GNEWS_API_KEY cfg.TWITTER_BEARER_TOKEN ::
        Event.uiSuccess step1OkMsg ::
        Event.callAnalysis cfg.RAW_NEWS_FILE cfg.ANALYZED_NEWS_FILE ::
        Event.uiSuccess step2OkMsg ::
          (stage3Run cfg w query (forecastChoices.get choice)).1,
        (stage3Run cfg w query (forecastChoices.get choice)).2) := by
    rw [runApp_triggered, stage1Run_ok_true cfg w query _ v1 hcol ht1,
      stage2Run_ok_true cfg w query _ v2 hana ht2]
  rw [heq]
  refine ⟨?_, ?_, ?_, forecastChoices_get_cases choice⟩
  · cases hfc : w.run_forecasting cfg.ANALYZED_NEWS_FILE cfg.POSITIVE_THRESHOLD
        cfg.NEGATIVE_THRESHOLD cfg.SLACK_WEBHOOK_URL (forecastChoices.get choice) with
    | error e =>
        rw [stage3Run_err cfg w query _ e hfc]
        simp [List.countP_cons, isForecastCall]
    | ok fdf =>
        rw [stage3Run_ok cfg w query _ fdf hfc]
        simp [List.countP_cons, isForecastCall,
          stage4Run_forecast_countP cfg w query (forecastChoices.get choice) fdf]
        intro a ha
        exact stage4Run_no_forecast cfg w query _ fdf a ha
  · cases hfc : w.run_forecasting cfg.ANALYZED_NEWS_FILE cfg.POSITIVE_THRESHOLD
        cfg.NEGATIVE_THRESHOLD cfg.SLACK_WEBHOOK_URL (forecastChoices.get choice) with
    | error e => rw [stage3Run_err cfg w query _ e hfc]; simp
    | ok fdf => rw [stage3Run_ok cfg w query _ fdf hfc]; simp
  · intro e he hf
    cases hfc : w.run_forecasting cfg.ANALYZED_NEWS_FILE cfg.POSITIVE_THRESHOLD
        cfg.NEGATIVE_THRESHOLD cfg.SLACK_WEBHOOK_URL (forecastChoices.get choice) with
    | error e2 =>
        rw [stage3Run_err cfg w query _ e2 hfc] at he
        simp only [List.mem_cons, List.mem_singleton, List.not_mem_nil, or_false] at he
        rcases he with he | he | he | he | he <;> subst he <;>
          first
            | rfl
            | exact absurd hf (by simp [isForecastCall])
    | ok fdf =>
        rw [stage3Run_ok cfg w query _ fdf hfc] at he
        simp only [List.mem_cons] at he
        rcases he with he | he | he | he | he | he | he
        all_goals try (subst he; first | rfl | exact absurd hf (by simp [isForecastCall]))
        · have := stage4Run_no_forecast cfg w query (forecastChoices.get choice) fdf e he
          rw [hf] at this
          exact absurd this (by simp)

/-- Witness for C3 at a concrete configuration and world. -/
theorem forecaster_called_once_witness :
    (runApp cfg0 baseWorld true "ai" 0).1.countP isForecastCall = 1 ∧
    Event.callForecasting cfg0.ANALYZED_NEWS_FILE cfg0.POSITIVE_THRESHOLD
        cfg0.NEGATIVE_THRESHOLD cfg0.SLACK_WEBHOOK_URL 7
      ∈ (runApp cfg0 baseWorld true "ai" 0).1 :=
  ⟨(forecaster_called_once cfg0 baseWorld "ai" 0 (.bool true) (.bool true)
      rfl rfl rfl rfl).1,
    (forecaster_called_once cfg0 baseWorld "ai" 0 (.bool true) (.bool true)
      rfl rfl rfl rfl).2.1⟩

/-! ### C4: no failure channel for Stage 3 -/

/-- C4: the Sequencer never gates on Stage 3: whatever value the Forecaster
returns (including `None`), Stage 3 success is reported and Stage 4 runs;
when the Forecaster raises, the exception escapes the run uncaught and no
stage error message is emitted. -/
theorem forecaster_unsignaled (cfg : Config) (w : World) (query : String)
    (choice : Fin 3) (v1 v2 : PyVal)
    (hcol : w.run_collection query cfg.RAW_NEWS_FILE cfg.NEWS_API_KEY
      cfg.GNEWS_API_KEY cfg.TWITTER_BEARER_TOKEN = .ok v1)
    (ht1 : truthy v1 = true)
    (hana : w.run_analysis cfg.RAW_NEWS_FILE cfg.ANALYZED_NEWS_FILE = .ok v2)
    (ht2 : truthy v2 = true) :
    (∀ fdf : PyVal,
      w.run_forecasting cfg.ANALYZED_NEWS_FILE cfg.POSITIVE_THRESHOLD
        cfg.NEGATIVE_THRESHOLD cfg.SLACK_WEBHOOK_URL (forecastChoices.get choice) =
          .ok fdf →
      runApp cfg w true query choice =
        (Event.callCollection query cfg.RAW_NEWS_FILE cfg.NEWS_API_KEY
            cfg.GNEWS_API_KEY cfg.TWITTER_BEARER_TOKEN ::
          Event.uiSuccess step1OkMsg ::
          Event.callAnalysis cfg.RAW_NEWS_FILE cfg.ANALYZED_NEWS_FILE ::
          Event.uiSuccess step2OkMsg ::
          Event.callForecasting cfg.ANALYZED_NEWS_FILE cfg.POSITIVE_THRESHOLD
            cfg.NEGATIVE_THRESHOLD cfg.SLACK_WEBHOOK_URL (forecastChoices.get choice) ::
          Event.uiSuccess step3OkMsg ::
            (stage4Run cfg w query (forecastChoices.get choice) fdf).1,
          (stage4Run cfg w query (forecastChoices.get choice) fdf).2)) ∧
    (∀ e : Exc,
      w.run_forecasting cfg.ANALYZED_NEWS_FILE cfg.POSITIVE_THRESHOLD
        cfg.NEGATIVE_THRESHOLD cfg.SLACK_WEBHOOK_URL (forecastChoices.get choice) =
          .error e →
      (runApp cfg w true query choice).2 = .uncaught e ∧
      ∀ ev ∈ (runApp cfg w true query choice).1, ∀ m, ev ≠ Event.uiError m) := by
  have heq : runApp cfg w true query choice =
      (Event.callCollection query cfg.RAW_NEWS_FILE cfg.NEWS_API_KEY
          cfg.GNEWS_API_KEY cfg.TWITTER_BEARER_TOKEN ::
        Event.uiSuccess step1OkMsg ::
        Event.callAnalysis cfg.RAW_NEWS_FILE cfg.ANALYZED_NEWS_FILE ::
        Event.uiSuccess step2OkMsg ::
          (stage3Run cfg w query (forecastChoices.get choice)).1,
        (stage3Run cfg w query (forecastChoices.get choice)).2) := by
    rw [runApp_triggered, stage1Run_ok_true cfg w query _ v1 hcol ht1,
      stage2Run_ok_true cfg w query _ v2 hana ht2]
  constructor
  · intro fdf hfc
    rw [heq, stage3Run_ok cfg w query _ fdf hfc]
  · intro e hfc
    rw [heq, stage3Run_err cfg w query _ e hfc]
    refine ⟨rfl, ?_⟩
    intro ev hev m
    simp only [List.mem_cons, List.mem_singleton, List.not_mem_nil, or_false] at hev
    rcases hev with hev | hev | hev | hev | hev <;> subst hev <;> simp

/-- A world whose Forecaster returns the sentinel `None`. -/
def forecastNoneWorld : World :=
  { baseWorld with run_forecasting := fun _ _ _ _ _ => .ok .none }

/-- A world whose Forecaster raises an exception. -/
def forecastRaiseWorld : World :=
  { baseWorld with run_forecasting := fun _ _ _ _ _ => .error (.other "prophet failed") }

/-- Witness for C4: with a `None` forecast the run still reports Stage 3
success and reaches Stage 4, and with a raising Forecaster the exception
escapes uncaught. -/
theorem forecaster_unsignaled_witness :
    runApp cfg0 forecastNoneWorld true "ai" 0 =
      (Event.callCollection "ai" cfg0.RAW_NEWS_FILE cfg0.NEWS_API_KEY
          cfg0.GNEWS_API_KEY cfg0.TWITTER_BEARER_TOKEN ::
        Event.uiSuccess step1OkMsg ::
        Event.callAnalysis cfg0.RAW_NEWS_FILE cfg0.ANALYZED_NEWS_FILE ::
        Event.uiSuccess step2OkMsg ::
        Event.callForecasting cfg0.ANALYZED_NEWS_FILE cfg0.POSITIVE_THRESHOLD
          cfg0.NEGATIVE_THRESHOLD cfg0.SLACK_WEBHOOK_URL 7 ::
        Event.uiSuccess step3OkMsg ::
          (stage4Run cfg0 forecastNoneWorld "ai" 7 PyVal.none).1,
        (stage4Run cfg0 forecastNoneWorld "ai" 7 PyVal.none).2) ∧
    (runApp cfg0 forecastRaiseWorld true "ai" 0).2 =
      Outcome.uncaught (Exc.other "prophet failed") :=
  ⟨(forecaster_unsignaled cfg0 forecastNoneWorld "ai" 0 (.bool true) (.bool true)
      rfl rfl rfl rfl).1 PyVal.none rfl,
    ((forecaster_unsignaled cfg0 forecastRaiseWorld "ai" 0 (.bool true) (.bool true)
      rfl rfl rfl rfl).2 (Exc.other "prophet failed") rfl).1⟩

/-! ### C5: absent enriched dataset at render time -/

/-- C5: when the run reaches Stage 4 and the enriched dataset file is
absent, the run ends completed in the missing-file error state naming the
analyzed data file path; no generic render error, no chart, and no
dashboard success message appear. -/
theorem render_missing_file_state (cfg : Config) (w : World) (query : String)
    (choice : Fin 3) (v1 v2 fdf : PyVal)
    (hcol : w.run_collection query cfg.RAW_NEWS_FILE cfg.NEWS_API_KEY
      cfg.GNEWS_API_KEY cfg.TWITTER_BEARER_TOKEN = .ok v1)
    (ht1 : truthy v1 = true)
    (hana : w.run_analysis cfg.RAW_NEWS_FILE cfg.ANALYZED_NEWS_FILE = .ok v2)
    (ht2 : truthy v2 = true)
    (hfc : w.run_forecasting cfg.ANALYZED_NEWS_FILE cfg.POSITIVE_THRESHOLD
      cfg.NEGATIVE_THRESHOLD cfg.SLACK_WEBHOOK_URL (forecastChoices.get choice) =
        .ok fdf)
    (habs : w.fs cfg.ANALYZED_NEWS_FILE = none) :
    Event.uiError (missingFileMsg cfg.ANALYZED_NEWS_FILE)
      ∈ (runApp cfg w true query choice).1 ∧
    (∀ s, Event.uiError (genericErrMsg s) ∉ (runApp cfg w true query choice).1) ∧
    (∀ fig, Event.stPyplot fig ∉ (runApp cfg w true query choice).1) ∧
    Event.uiSuccess dashboardOkMsg ∉ (runApp cfg w true query choice).1 ∧
    (runApp cfg w true query choice).2 = Outcome.completed := by
  have heq : runApp cfg w true query choice =
      (Event.callCollection query cfg.RAW_NEWS_FILE cfg.NEWS_API_KEY
          cfg.GNEWS_API_KEY cfg.TWITTER_BEARER_TOKEN ::
        Event.uiSuccess step1OkMsg ::
        Event.callAnalysis cfg.RAW_NEWS_FILE cfg.ANALYZED_NEWS_FILE ::
        Event.uiSuccess step2OkMsg ::
        Event.callForecasting cfg.ANALYZED_NEWS_FILE cfg.POSITIVE_THRESHOLD
          cfg.NEGATIVE_THRESHOLD cfg.SLACK_WEBHOOK_URL (forecastChoices.get choice) ::
        Event.uiSuccess step3OkMsg ::
        [Event.uiError (missingFileMsg cfg.ANALYZED_NEWS_FILE)],
        Outcome.completed) := by
    rw [runApp_triggered, stage1Run_ok_true cfg w query _ v1 hcol ht1,
      stage2Run_ok_true cfg w query _ v2 hana ht2,
      stage3Run_ok cfg w query _ fdf hfc,
      stage4Run_absent cfg w query _ fdf habs]
  have hd1 : dashboardOkMsg ≠ step1OkMsg := by decide
  have hd2 : dashboardOkMsg ≠ step2OkMsg := by decide
  have hd3 : dashboardOkMsg ≠ step3OkMsg := by decide
  refine ⟨?_, ?_, ?_, ?_, ?_⟩
  · rw [heq]; simp
  · intro s
    rw [heq]
    simp [generic_ne_missing s cfg.ANALYZED_NEWS_FILE]
  · intro fig
    rw [heq]
    simp
  · rw [heq]
    simp [hd1, hd2, hd3]
  · rw [heq]

/-- A world in which the enriched dataset file never exists. -/
def missingFileWorld : World := { baseWorld with fs := fun _ => none }

/-- Witness for C5 at a concrete configuration and world. -/
theorem render_missing_file_state_witness :
    Event.uiError (missingFileMsg cfg0.ANALYZED_NEWS_FILE)
      ∈ (runApp cfg0 missingFileWorld true "ai" 0).1 ∧
    (runApp cfg0 missingFileWorld true "ai" 0).2 = Outcome.completed :=
  ⟨(render_missing_file_state cfg0 missingFileWorld "ai" 0 (.bool true) (.bool true)
      (.str "forecast") rfl rfl rfl rfl rfl rfl).1,
    (render_missing_file_state cfg0 missingFileWorld "ai" 0 (.bool true) (.bool true)
      (.str "forecast") rfl rfl rfl rfl rfl rfl).2.2.2.2⟩

/-! ### Stage 4 branch lemmas -/

theorem stage4Run_render_ok (cfg : Config) (w : World) (query : String)
    (periods : Nat) (fdf : PyVal) (df : Frame) (col col2 : List PyVal) (fig : PyVal)
    (hfs : w.fs cfg.ANALYZED_NEWS_FILE = some df)
    (hgc : df.getCol "publishedAt" = .ok col)
    (hdt : w.to_datetime col = .ok col2)
    (hgd : w.generate_dashboard_figure (df.setCol "publishedAt" col2) fdf query
      periods = .ok fig) :
    stage4Run cfg w query periods fdf =
      ([Event.callPresenter (df.setCol "publishedAt" col2) fdf query periods,
        Event.stPyplot fig, Event.uiSuccess dashboardOkMsg], .completed) := by
  simp only [stage4Run, hfs, hgc, hdt, hgd]

theorem stage4Run_render_err (cfg : Config) (w : World) (query : String)
    (periods : Nat) (fdf : PyVal) (df : Frame) (col col2 : List PyVal) (e : Exc)
    (hfs : w.fs cfg.ANALYZED_NEWS_FILE = some df)
    (hgc : df.getCol "publishedAt" = .ok col)
    (hdt : w.to_datetime col = .ok col2)
    (hgd : w.generate_dashboard_figure (df.setCol "publishedAt" col2) fdf query
      periods = .error e) :
    stage4Run cfg w query periods fdf =
      stage4Handle cfg
        [Event.callPresenter (df.setCol "publishedAt" col2) fdf query periods] e := by
  simp only [stage4Run, hfs, hgc, hdt, hgd]

theorem stage4Run_dt_err (cfg : Config) (w : World) (query : String)
    (periods : Nat) (fdf : PyVal) (df : Frame) (col : List PyVal) (e : Exc)
    (hfs : w.fs cfg.ANALYZED_NEWS_FILE = some df)
    (hgc : df.getCol "publishedAt" = .ok col)
    (hdt : w.to_datetime col = .error e) :
    stage4Run cfg w query periods fdf = stage4Handle cfg [] e := by
  simp only [stage4Run, hfs, hgc, hdt]

theorem stage4Run_col_err (cfg : Config) (w : World) (query : String)
    (periods : Nat) (fdf : PyVal) (df : Frame) (e : Exc)
    (hfs : w.fs cfg.ANALYZED_NEWS_FILE = some df)
    (hgc : df.getCol "publishedAt" = .error e) :
    stage4Run cfg w query periods fdf = stage4Handle cfg [] e := by
  simp only [stage4Run, hfs, hgc]

theorem stage4Run_presenter_mem (cfg : Config) (w : World) (query : String)
    (periods : Nat) (fdf : PyVal) (df : Frame) (col col2 : List PyVal)
    (hfs : w.fs cfg.ANALYZED_NEWS_FILE = some df)
    (hgc : df.getCol "publishedAt" = .ok col)
    (hdt : w.to_datetime col = .ok col2) :
    Event.callPresenter (df.setCol "publishedAt" col2) fdf query periods
      ∈ (stage4Run cfg w query periods fdf).1 := by
  rcases hgd : w.generate_dashboard_figure (df.setCol "publishedAt" col2) fdf query
      periods with e | fig
  · rw [stage4Run_render_err cfg w query periods fdf df col col2 e hfs hgc hdt hgd]
    rcases e with p | k | m <;> simp [stage4Handle]
  · rw [stage4Run_render_ok cfg w query periods fdf df col col2 fig hfs hgc hdt hgd]
    simp

theorem stage4Run_presenter_unique (cfg : Config) (w : World) (query : String)
    (periods : Nat) (fdf : PyVal) (df : Frame) (col col2 : List PyVal)
    (hfs : w.fs cfg.ANALYZED_NEWS_FILE = some df)
    (hgc : df.getCol "publishedAt" = .ok col)
    (hdt : w.to_datetime col = .ok col2) :
    ∀ e ∈ (stage4Run cfg w query periods fdf).1, isPresenterCall e = true →
      e = Event.callPresenter (df.setCol "publishedAt" col2) fdf query periods := by
  intro e he hp
  rcases hgd : w.generate_dashboard_figure (df.setCol "publishedAt" col2) fdf query
      periods with exc | fig
  · rw [stage4Run_render_err cfg w query periods fdf df col col2 exc hfs hgc hdt hgd] at he
    rcases exc with p | k | m <;> simp [stage4Handle] at he <;>
      (rcases he with he | he <;> subst he) <;>
      first
        | rfl
        | exact absurd hp (by simp [isPresenterCall])
  · rw [stage4Run_render_ok cfg w query periods fdf df col col2 fig hfs hgc hdt hgd] at he
    simp only [List.mem_cons, List.mem_singleton, List.not_mem_nil, or_false] at he
    rcases he with he | he | he <;> subst he <;>
      first
        | rfl
        | exact absurd hp (by simp [isPresenterCall])

/-! ### C7: Stage 4 reloads from disk and hands the result to the Presenter -/

/-- C7: a run reaching Stage 4 re-reads the enriched dataset from the
configured path, replaces its `publishedAt` column by the converted one,
and invokes the Presenter with exactly that reloaded dataset, the Stage 3
forecast result, the topic, and the horizon; any Presenter invocation in
the run has exactly these arguments. -/
theorem presenter_reload_args (cfg : Config) (w : World) (query : String)
    (choice : Fin 3) (v1 v2 fdf : PyVal) (df : Frame) (col col2 : List PyVal)
    (hcol : w.run_collection query cfg.RAW_NEWS_FILE cfg.NEWS_API_KEY
      cfg.GNEWS_API_KEY cfg.TWITTER_BEARER_TOKEN = .ok v1)
    (ht1 : truthy v1 = true)
    (hana : w.run_analysis cfg.RAW_NEWS_FILE cfg.ANALYZED_NEWS_FILE = .ok v2)
    (ht2 : truthy v2 = true)
    (hfc : w.run_forecasting cfg.ANALYZED_NEWS_FILE cfg.POSITIVE_THRESHOLD
      cfg.NEGATIVE_THRESHOLD cfg.SLACK_WEBHOOK_URL (forecastChoices.get choice) =
        .ok fdf)
    (hfs : w.fs cfg.ANALYZED_NEWS_FILE = some df)
    (hgc : df.getCol "publishedAt" = .ok col)
    (hdt : w.to_datetime col = .ok col2) :
    Event.callPresenter (df.setCol "publishedAt" col2) fdf query
        (forecastChoices.get choice) ∈ (runApp cfg w true query choice).1 ∧
    ∀ e ∈ (runApp cfg w true query choice).1, isPresenterCall e = true →
      e = Event.callPresenter (df.setCol "publishedAt" col2) fdf query
        (forecastChoices.get choice) := by
  have heq : runApp cfg w true query choice =
      (Event.callCollection query cfg.RAW_NEWS_FILE cfg.NEWS_API_KEY
          cfg.GNEWS_API_KEY cfg.TWITTER_BEARER_TOKEN ::
        Event.uiSuccess step1OkMsg ::
        Event.callAnalysis cfg.RAW_NEWS_FILE cfg.ANALYZED_NEWS_FILE ::
        Event.uiSuccess step2OkMsg ::
        Event.callForecasting cfg.ANALYZED_NEWS_FILE cfg.POSITIVE_THRESHOLD
          cfg.NEGATIVE_THRESHOLD cfg.SLACK_WEBHOOK_URL (forecastChoices.get choice) ::
        Event.uiSuccess step3OkMsg ::
          (stage4Run cfg w query (forecastChoices.get choice) fdf).1,
        (stage4Run cfg w query (forecastChoices.get choice) fdf).2) := by
    rw [runApp_triggered, stage1Run_ok_true cfg w query _ v1 hcol ht1,
      stage2Run_ok_true cfg w query _ v2 hana ht2,
      stage3Run_ok cfg w query _ fdf hfc]
  constructor
  · rw [heq]
    simp only [List.mem_cons]
    right; right; right; right; right; right
    exact stage4Run_presenter_mem cfg w query (forecastChoices.get choice) fdf df
      col col2 hfs hgc hdt
  · intro e he hp
    rw [heq] at he
    simp only [List.mem_cons] at he
    rcases he with he | he | he | he | he | he | he
    · subst he; exact absurd hp (by simp [isPresenterCall])
    · subst he; exact absurd hp (by simp [isPresenterCall])
    · subst he; exact absurd hp (by simp [isPresenterCall])
    · subst he; exact absurd hp (by simp [isPresenterCall])
    · subst he; exact absurd hp (by simp [isPresenterCall])
    · subst he; exact absurd hp (by simp [isPresenterCall])
    · exact stage4Run_presenter_unique cfg w query (forecastChoices.get choice) fdf
        df col col2 hfs hgc hdt e he hp

/-- Witness for C7 at a concrete configuration and world. -/
theorem presenter_reload_args_witness :
    Event.callPresenter (frame0.setCol "publishedAt" [.str "2025-01-01"])
        (.str "forecast") "ai" 7 ∈ (runApp cfg0 baseWorld true "ai" 0).1 :=
  (presenter_reload_args cfg0 baseWorld "ai" 0 (.bool true) (.bool true)
    (.str "forecast") frame0 [.str "2025-01-01"] [.str "2025-01-01"]
    rfl rfl rfl rfl rfl rfl rfl rfl).1

/-! ### C9: the missing-file handler catches every FileNotFoundError -/

/-- C9: any `FileNotFoundError` raised inside the Stage 4 block — by the
timestamp conversion or by the Presenter itself, for any path, even while
the enriched dataset file is present — is reported with the message naming
the analyzed data file path. -/
theorem fnf_catchall (cfg : Config) (w : World) (query : String)
    (choice : Fin 3) (v1 v2 fdf : PyVal) (df : Frame) (col : List PyVal)
    (hcol : w.run_collection query cfg.RAW_NEWS_FILE cfg.NEWS_API_KEY
      cfg.GNEWS_API_KEY cfg.TWITTER_BEARER_TOKEN = .ok v1)
    (ht1 : truthy v1 = true)
    (hana : w.run_analysis cfg.RAW_NEWS_FILE cfg.ANALYZED_NEWS_FILE = .ok v2)
    (ht2 : truthy v2 = true)
    (hfc : w.run_forecasting cfg.ANALYZED_NEWS_FILE cfg.POSITIVE_THRESHOLD
      cfg.NEGATIVE_THRESHOLD cfg.SLACK_WEBHOOK_URL (forecastChoices.get choice) =
        .ok fdf)
    (hfs : w.fs cfg.ANALYZED_NEWS_FILE = some df)
    (hgc : df.getCol "publishedAt" = .ok col) :
    (∀ p, w.to_datetime col = .error (.fileNotFound p) →
      Event.uiError (missingFileMsg cfg.ANALYZED_NEWS_FILE)
        ∈ (runApp cfg w true query choice).1 ∧
      (runApp cfg w true query choice).2 = Outcome.completed) ∧
    (∀ (col2 : List PyVal) (p : String), w.to_datetime col = .ok col2 →
      w.generate_dashboard_figure (df.setCol "publishedAt" col2) fdf query
        (forecastChoices.get choice) = .error (.fileNotFound p) →
      Event.callPresenter (df.setCol "publishedAt" col2) fdf query
          (forecastChoices.get choice) ∈ (runApp cfg w true query choice).1 ∧
      Event.uiError (missingFileMsg cfg.ANALYZED_NEWS_FILE)
        ∈ (runApp cfg w true query choice).1 ∧
      (runApp cfg w true query choice).2 = Outcome.completed) := by
  have heq : runApp cfg w true query choice =
      (Event.callCollection query cfg.RAW_NEWS_FILE cfg.NEWS_API_KEY
          cfg.GNEWS_API_KEY cfg.TWITTER_BEARER_TOKEN ::
        Event.uiSuccess step1OkMsg ::
        Event.callAnalysis cfg.RAW_NEWS_FILE cfg.ANALYZED_NEWS_FILE ::
        Event.uiSuccess step2OkMsg ::
        Event.callForecasting cfg.ANALYZED_NEWS_FILE cfg.POSITIVE_THRESHOLD
          cfg.NEGATIVE_THRESHOLD cfg.SLACK_WEBHOOK_URL (forecastChoices.get choice) ::
        Event.uiSuccess step3OkMsg ::
          (stage4Run cfg w query (forecastChoices.get choice) fdf).1,
        (stage4Run cfg w query (forecastChoices.get choice) fdf).2) := by
    rw [runApp_triggered, stage1Run_ok_true cfg w query _ v1 hcol ht1,
      stage2Run_ok_true cfg w query _ v2 hana ht2,
      stage3Run_ok cfg w query _ fdf hfc]
  constructor
  · intro p hdt
    have hs4 : stage4Run cfg w query (forecastChoices.get choice) fdf =
        ([Event.uiError (missingFileMsg cfg.ANALYZED_NEWS_FILE)], .completed) :=
      stage4Run_dt_err cfg w query _ fdf df col (.fileNotFound p) hfs hgc hdt
    rw [heq, hs4]
    exact ⟨by simp, rfl⟩
  · intro col2 p hdt hgd
    have hs4 : stage4Run cfg w query (forecastChoices.get choice) fdf =
        ([Event.callPresenter (df.setCol "publishedAt" col2) fdf query
            (forecastChoices.get choice),
          Event.uiError (missingFileMsg cfg.ANALYZED_NEWS_FILE)], .completed) :=
      stage4Run_render_err cfg w query _ fdf df col col2 (.fileNotFound p)
        hfs hgc hdt hgd
    rw [heq, hs4]
    exact ⟨by simp, by simp, rfl⟩

/-- A world whose Presenter raises a `FileNotFoundError` for a path other
than the enriched dataset, which itself is present. -/
def presenterFnfWorld : World :=
  { baseWorld with
      generate_dashboard_figure := fun _ _ _ _ =>
        .error (.fileNotFound "assets/logo.png") }

/-- Witness for C9: the Presenter raises `FileNotFoundError` on an asset
path while the enriched file exists, yet the run reports the
missing-analyzed-data-file message. -/
theorem fnf_catchall_witness :
    Event.uiError (missingFileMsg cfg0.ANALYZED_NEWS_FILE)
      ∈ (runApp cfg0 presenterFnfWorld true "ai" 0).1 ∧
    (runApp cfg0 presenterFnfWorld true "ai" 0).2 = Outcome.completed :=
  ⟨(((fnf_catchall cfg0 presenterFnfWorld "ai" 0 (.bool true) (.bool true)
      (.str "forecast") frame0 [.str "2025-01-01"]
      rfl rfl rfl rfl rfl rfl rfl).2 [.str "2025-01-01"] "assets/logo.png"
      rfl rfl).2).1,
    (((fnf_catchall cfg0 presenterFnfWorld "ai" 0 (.bool true) (.bool true)
      (.str "forecast") frame0 [.str "2025-01-01"]
      rfl rfl rfl rfl rfl rfl rfl).2 [.str "2025-01-01"] "assets/logo.png"
      rfl rfl).2).2⟩

/-! ### C10: missing publishedAt column lands in the generic error state -/

theorem getCol_none (f : Frame) (name : String)
    (h : f.cols.find? (fun p => p.1 == name) = none) :
    f.getCol name = .error (.keyError name) := by
  simp only [Frame.getCol, h]

/-- C10: when the enriched file exists but has no `publishedAt` column, the
run ends completed in the generic render-error state whose message carries
the `KeyError` text, with no missing-file message, no chart and no
dashboard success message. -/
theorem missing_column_generic_error (cfg : Config) (w : World) (query : String)
    (choice : Fin 3) (v1 v2 fdf : PyVal) (df : Frame)
    (hcol : w.run_collection query cfg.RAW_NEWS_FILE cfg.NEWS_API_KEY
      cfg.GNEWS_API_KEY cfg.TWITTER_BEARER_TOKEN = .ok v1)
    (ht1 : truthy v1 = true)
    (hana : w.run_analysis cfg.RAW_NEWS_FILE cfg.ANALYZED_NEWS_FILE = .ok v2)
    (ht2 : truthy v2 = true)
    (hfc : w.run_forecasting cfg.ANALYZED_NEWS_FILE cfg.POSITIVE_THRESHOLD
      cfg.NEGATIVE_THRESHOLD cfg.SLACK_WEBHOOK_URL (forecastChoices.get choice) =
        .ok fdf)
    (hfs : w.fs cfg.ANALYZED_NEWS_FILE = some df)
    (hnc : df.cols.find? (fun p => p.1 == "publishedAt") = none) :
    Event.uiError (genericErrMsg (excText (Exc.keyError "publishedAt")))
      ∈ (runApp cfg w true query choice).1 ∧
    Event.uiError (missingFileMsg cfg.ANALYZED_NEWS_FILE)
      ∉ (runApp cfg w true query choice).1 ∧
    (∀ fig, Event.stPyplot fig ∉ (runApp cfg w true query choice).1) ∧
    Event.uiSuccess dashboardOkMsg ∉ (runApp cfg w true query choice).1 ∧
    (runApp cfg w true query choice).2 = Outcome.completed := by
  have hs4 : stage4Run cfg w query (forecastChoices.get choice) fdf =
      ([Event.uiError (genericErrMsg (excText (Exc.keyError "publishedAt")))],
        .completed) :=
    stage4Run_col_err cfg w query _ fdf df (.keyError "publishedAt") hfs
      (getCol_none df "publishedAt" hnc)
  have heq : runApp cfg w true query choice =
      (Event.callCollection query cfg.RAW_NEWS_FILE cfg.NEWS_API_KEY
          cfg.GNEWS_API_KEY cfg.TWITTER_BEARER_TOKEN ::
        Event.uiSuccess step1OkMsg ::
        Event.callAnalysis cfg.RAW_NEWS_FILE cfg.ANALYZED_NEWS_FILE ::
        Event.uiSuccess step2OkMsg ::
        Event.callForecasting cfg.ANALYZED_NEWS_FILE cfg.POSITIVE_THRESHOLD
          cfg.NEGATIVE_THRESHOLD cfg.SLACK_WEBHOOK_URL (forecastChoices.get choice) ::
        Event.uiSuccess step3OkMsg ::
        [Event.uiError (genericErrMsg (excText (Exc.keyError "publishedAt")))],
        Outcome.completed) := by
    rw [runApp_triggered, stage1Run_ok_true cfg w query _ v1 hcol ht1,
      stage2Run_ok_true cfg w query _ v2 hana ht2,
      stage3Run_ok cfg w query _ fdf hfc, hs4]
  have hne : missingFileMsg cfg.ANALYZED_NEWS_FILE ≠
      genericErrMsg (excText (Exc.keyError "publishedAt")) :=
    (generic_ne_missing (excText (Exc.keyError "publishedAt"))
      cfg.ANALYZED_NEWS_FILE).symm
  have hd1 : dashboardOkMsg ≠ step1OkMsg := by decide
  have hd2 : dashboardOkMsg ≠ step2OkMsg := by decide
  have hd3 : dashboardOkMsg ≠ step3OkMsg := by decide
  refine ⟨?_, ?_, ?_, ?_, ?_⟩
  · rw [heq]; simp
  · rw [heq]; simp [hne]
  · intro fig; rw [heq]; simp
  · rw [heq]; simp [hd1, hd2, hd3]
  · rw [heq]

/-- A world whose enriched dataset file exists but has no `publishedAt`
column. -/
def noColumnWorld : World :=
  { baseWorld with fs := fun _ => some ⟨[("title", [.str "headline"])]⟩ }

/-- Witness for C10 at a concrete configuration and world. -/
theorem missing_column_generic_error_witness :
    Event.uiError (genericErrMsg (excText (Exc.keyError "publishedAt")))
      ∈ (runApp cfg0 noColumnWorld true "ai" 0).1 ∧
    (runApp cfg0 noColumnWorld true "ai" 0).2 = Outcome.completed :=
  ⟨(missing_column_generic_error cfg0 noColumnWorld "ai" 0 (.bool true) (.bool true)
      (.str "forecast") ⟨[("title", [.str "headline"])]⟩
      rfl rfl rfl rfl rfl rfl rfl).1,
    (missing_column_generic_error cfg0 noColumnWorld "ai" 0 (.bool true) (.bool true)
      (.str "forecast") ⟨[("title", [.str "headline"])]⟩
      rfl rfl rfl rfl rfl rfl rfl).2.2.2.2⟩

/-! ### C6: startup behaviour on bad configuration -/

theorem loadConfig_missing_none (s : ConfigSource)
    (hmiss : s.NEWS_API_KEY = none ∨ s.GNEWS_API_KEY = none ∨
      s.TWITTER_BEARER_TOKEN = none ∨ s.SLACK_WEBHOOK_URL = none ∨
      s.RAW_NEWS_FILE = none ∨ s.ANALYZED_NEWS_FILE = none ∨
      s.QUERY_TOPIC = none ∨ s.POSITIVE_THRESHOLD = none ∨
      s.NEGATIVE_THRESHOLD = none) :
    loadConfig s = none := by
  unfold loadConfig
  split
  · rcases hmiss with h | h | h | h | h | h | h | h | h <;> simp_all
  · rfl

/-- C6 (amended): when any one of the nine required settings is missing,
the import fails, startup emits the fatal configuration error and stops,
and no pipeline stage is ever invoked; present settings, however, are
never validated (see the counterexample). -/
theorem config_missing_halts (s : ConfigSource) (w : World) (triggered : Bool)
    (query : String) (choice : Fin 3)
    (hmiss : s.NEWS_API_KEY = none ∨ s.GNEWS_API_KEY = none ∨
      s.TWITTER_BEARER_TOKEN = none ∨ s.SLACK_WEBHOOK_URL = none ∨
      s.RAW_NEWS_FILE = none ∨ s.ANALYZED_NEWS_FILE = none ∨
      s.QUERY_TOPIC = none ∨ s.POSITIVE_THRESHOLD = none ∨
      s.NEGATIVE_THRESHOLD = none) :
    loadConfig s = none ∧
    startApp s w triggered query choice =
      ([Event.uiError configErrMsg, Event.uiErrorDetails,
        Event.uiInfo configHintMsg], Outcome.stopped) ∧
    ∀ e ∈ (startApp s w triggered query choice).1,
      isCollectionCall e = false ∧ isAnalysisCall e = false ∧
        isForecastCall e = false ∧ isPresenterCall e = false := by
  have hn : loadConfig s = none := loadConfig_missing_none s hmiss
  have heq : startApp s w triggered query choice =
      ([Event.uiError configErrMsg, Event.uiErrorDetails,
        Event.uiInfo configHintMsg], Outcome.stopped) := by
    unfold startApp
    rw [hn]
  refine ⟨hn, heq, ?_⟩
  rw [heq]
  intro e he
  simp only [List.mem_cons, List.mem_singleton, List.not_mem_nil, or_false] at he
  rcases he with he | he | he <;> subst he <;> exact ⟨rfl, rfl, rfl, rfl⟩

/-- A `config.py` defining everything except `NEWS_API_KEY`. -/
def srcMissingKey : ConfigSource :=
  ⟨none, some (.str "gnewskey"), some (.str "twtoken"),
   some (.str "https://hooks.example/T0"), some (.str "raw_news.csv"),
   some (.str "analyzed_news.csv"), some (.str "artificial intelligence"),
   some (.num 1), some (.num (-1))⟩

/-- Witness for the amended C6 at a concrete configuration source. -/
theorem config_missing_halts_witness :
    loadConfig srcMissingKey = none ∧
    startApp srcMissingKey baseWorld false "ai" 0 =
      ([Event.uiError configErrMsg, Event.uiErrorDetails,
        Event.uiInfo configHintMsg], Outcome.stopped) :=
  ⟨(config_missing_halts srcMissingKey baseWorld false "ai" 0 (Or.inl rfl)).1,
    (config_missing_halts srcMissingKey baseWorld false "ai" 0 (Or.inl rfl)).2.1⟩

/-- A `config.py` defining all nine names, but with both thresholds bound
to strings rather than numbers: present yet malformed. -/
def badSrc : ConfigSource :=
  ⟨some (.str "newskey"), some (.str "gnewskey"), some (.str "twtoken"),
   some (.str "https://hooks.example/T0"), some (.str "raw_news.csv"),
   some (.str "analyzed_news.csv"), some (.str "chips"),
   some (.str "very positive"), some (.str "quite negative")⟩

/-- Numeric values among `PyVal`; the alert thresholds are compared against
sentiment scores downstream, so a well-formed threshold is a number. -/
def isNumeric : PyVal → Bool
  | .num _ => true
  | _ => false

/-- C6 counterexample: a configuration with a present but malformed
threshold setting loads successfully; startup emits no configuration error,
reaches the triggerable UI state showing the static prompt, and a trigger
then runs the pipeline (the Collector is invoked). -/
theorem config_malformed_reaches_ui :
    badSrc.POSITIVE_THRESHOLD = some (PyVal.str "very positive") ∧
    isNumeric (badSrc.POSITIVE_THRESHOLD.getD PyVal.none) = false ∧
    (loadConfig badSrc).isSome = true ∧
    startApp badSrc baseWorld false "chips" 0 =
      ([Event.uiInfo promptMsg], Outcome.completed) ∧
    (startApp badSrc baseWorld true "chips" 0).1.countP isCollectionCall = 1 :=
  ⟨rfl, rfl, rfl, rfl, rfl⟩
